import Mathlib

/-
  Verification of the ramalama model-transport/store/serve layer.

  Shallow embedding conventions:
  * Python `str` values are modelled as `List Char` (named `PyStr` below);
    string literals enter the model through `String.data`, and the Python
    string primitives used by the sources (`split`, `replace`, `lower`,
    `startswith`, membership, `count`, slicing) are re-implemented as
    structural recursions so that every model is executable and
    kernel-evaluable.
  * The filesystem, the SHA-256 digest and the container engine are
    modelled as explicit inputs (association lists / oracle functions):
    the code under verification only ever consumes their results.
  * Python exceptions are modelled by `PyClass` values together with the
    class hierarchy (method-resolution order) that `except` clauses
    consult; in Python 3 `IOError` is an alias of `OSError`, which the
    hierarchy below reflects.
-/

set_option autoImplicit false

namespace Ramalama

/-- Python strings, modelled as lists of characters. -/
abbrev PyStr := List Char

/-- Python `str.split(sep)` for a one-character separator: splits on every
occurrence of `sep`, keeping empty pieces, so the result is always
nonempty. -/
def pySplit (sep : Char) : PyStr → List PyStr
  | [] => [[]]
  | c :: cs =>
    let rest := pySplit sep cs
    if c = sep then [] :: rest
    else
      match rest with
      | [] => [[c]]
      | h :: t => (c :: h) :: t

/-- `os.path.basename` (POSIX): the part of the path after the last
slash. -/
def basenameL (p : PyStr) : PyStr :=
  (pySplit '/' p).getLastD []

/-- Python `str.replace(pat, rep)` (all occurrences, left to right,
non-overlapping), for a non-empty pattern.  The fuel argument makes the
recursion structural; `fuel = s.length` always suffices for non-empty
patterns. -/
def replaceAllAux (pat rep : PyStr) : Nat → PyStr → PyStr
  | 0, s => s
  | _, [] => []
  | fuel + 1, c :: cs =>
    if pat.isPrefixOf (c :: cs) then
      rep ++ replaceAllAux pat rep fuel (List.drop pat.length (c :: cs))
    else
      c :: replaceAllAux pat rep fuel cs

/-- Python `str.replace(pat, rep)` for a non-empty `pat`. -/
def replaceAll (pat rep s : PyStr) : PyStr :=
  replaceAllAux pat rep s.length s

/-- Python `str.lower` restricted to ASCII, as used on image names. -/
def toLowerL (s : PyStr) : PyStr :=
  s.map Char.toLower

/-- Contiguous-substring test: `needle` occurs inside `hay`. -/
def isInfixOfL (needle : PyStr) : PyStr → Bool
  | [] => needle.isEmpty
  | c :: t => needle.isPrefixOf (c :: t) || isInfixOfL needle t

/-- Python `needle in hay` on strings (substring containment). -/
def pyIn (needle hay : PyStr) : Bool :=
  isInfixOfL needle hay

/- ### Python exception classes (`ramalama/cli/__init__.py` uses them
   in its `except` ladder). -/

/-- The Python exception classes relevant to the CLI entry point.
`osError` doubles as `IOError`, which is an alias of `OSError` in
Python 3.  `EndianMismatchError` (ramalama/utils/endian.py),
`NoRefFileFound` / `NoGGUFModelFileFound` (ramalama/transports/base.py)
and `ParseError` (ramalama/model_inspect/error.py) are not part of the
sources; modelled from the spec as direct `Exception` subclasses (the
spec only requires that `EndianMismatch` "exits 1 silently", i.e. that
no earlier handler intercepts it). -/
inductive PyClass where
  | baseException
  | exceptionBase
  | lookupError
  | runtimeError
  | subprocessError
  | osError
  | urlError
  | httpError
  | fileNotFoundError
  | connectionError
  | indexError
  | keyError
  | valueError
  | noRefFileFound
  | notImplementedError
  | timeoutExpired
  | calledProcessError
  | endianMismatchError
  | keyboardInterrupt
  | parseError
  | noGGUFModelFileFound
  deriving DecidableEq, Repr

/-- The linearised ancestor list (method-resolution order) of each
class, from the Python standard hierarchy. -/
def PyClass.mro : PyClass → List PyClass
  | baseException => [baseException]
  | exceptionBase => [exceptionBase, baseException]
  | lookupError => [lookupError, exceptionBase, baseException]
  | runtimeError => [runtimeError, exceptionBase, baseException]
  | subprocessError => [subprocessError, exceptionBase, baseException]
  | osError => [osError, exceptionBase, baseException]
  | urlError => [urlError, osError, exceptionBase, baseException]
  | httpError => [httpError, urlError, osError, exceptionBase, baseException]
  | fileNotFoundError => [fileNotFoundError, osError, exceptionBase, baseException]
  | connectionError => [connectionError, osError, exceptionBase, baseException]
  | indexError => [indexError, lookupError, exceptionBase, baseException]
  | keyError => [keyError, lookupError, exceptionBase, baseException]
  | valueError => [valueError, exceptionBase, baseException]
  | noRefFileFound => [noRefFileFound, exceptionBase, baseException]
  | notImplementedError => [notImplementedError, runtimeError, exceptionBase, baseException]
  | timeoutExpired => [timeoutExpired, subprocessError, exceptionBase, baseException]
  | calledProcessError => [calledProcessError, subprocessError, exceptionBase, baseException]
  | endianMismatchError => [endianMismatchError, exceptionBase, baseException]
  | keyboardInterrupt => [keyboardInterrupt, baseException]
  | parseError => [parseError, exceptionBase, baseException]
  | noGGUFModelFileFound => [noGGUFModelFileFound, exceptionBase, baseException]

/-- An exception instance: its concrete class, the `winerror` attribute
(OSError only; `none` outside Windows) and the `returncode` attribute
(CalledProcessError only). -/
structure PyExc where
  cls : PyClass
  winerror : Option Nat := none
  returncode : Int := 0
  deriving DecidableEq, Repr

/-- Python `isinstance(e, c)`: the handler class appears among the
ancestors of the instance class. -/
def isInst (e : PyExc) (c : PyClass) : Bool :=
  c ∈ e.cls.mro

/- ### `verify_checksum` (ramalama/utils/crypto.py, duplicated verbatim
   in ramalama/utils/common.py). -/

/-- Error message of the BadName `ValueError` (source:
`filename has to start with sha256: or sha256-: ...`; the interpolated
base name is elided). -/
def badNameMsg : PyStr :=
  ("filename has to start with sha256: or sha256-").data

/-- Error message of the bad-length `ValueError`. -/
def badLenMsg : PyStr :=
  ("invalid checksum length in filename").data

/-- Final part of `verify_checksum`: length check of the extracted
checksum, then comparison with the streamed digest of the contents. -/
def checkDigest (digest : List Nat → PyStr) (contents : List Nat)
    (expected : PyStr) : Except (PyClass × PyStr) Bool :=
  if expected.length ≠ 64 then
    Except.error (PyClass.valueError, badLenMsg)
  else
    Except.ok (digest contents == expected)

/-- `verify_checksum(filename)` from ramalama/utils/crypto.py.  The
filesystem is an association list from path to file contents (bytes);
`digest` is the streamed SHA-256 hex digest function (`hashlib`),
applied to the whole contents — the source feeds the same bytes in 4096
byte blocks.  Raised `ValueError`s become `Except.error` carrying the
class. -/
def verify_checksum (digest : List Nat → PyStr)
    (fs : List (PyStr × List Nat)) (filename : PyStr) :
    Except (PyClass × PyStr) Bool :=
  match fs.lookup filename with
  | none => Except.ok false
  | some contents =>
    let fnBase := basenameL filename
    if (("sha256:").data).isPrefixOf fnBase then
      checkDigest digest contents ((pySplit ':' fnBase).getD 1 [])
    else if (("sha256-").data).isPrefixOf fnBase then
      checkDigest digest contents ((pySplit '-' fnBase).getD 1 [])
    else
      Except.error (PyClass.valueError, badNameMsg)

/-- The sixteen lower-case hexadecimal digits. -/
def hexDigits : PyStr := ("0123456789abcdef").data

/- ### Helper lemmas about the Python string primitives. -/

theorem pySplit_no_sep (sep : Char) (l : PyStr) (h : sep ∉ l) :
    pySplit sep l = [l] := by
  induction l with
  | nil => rfl
  | cons c cs ih =>
    have hc : c ≠ sep := fun he => h (he ▸ List.mem_cons_self c cs)
    have hcs : sep ∉ cs := fun hm => h (List.mem_cons_of_mem c hm)
    simp [pySplit, hc, ih hcs]

theorem pySplit_append_sep (sep : Char) (a b : PyStr)
    (ha : sep ∉ a) (hb : sep ∉ b) :
    pySplit sep (a ++ sep :: b) = [a, b] := by
  induction a with
  | nil => simp [pySplit, pySplit_no_sep sep b hb]
  | cons c cs ih =>
    have hc : c ≠ sep := fun he => ha (he ▸ List.mem_cons_self c cs)
    have hcs : sep ∉ cs := fun hm => ha (List.mem_cons_of_mem c hm)
    simp [pySplit, hc, ih hcs]

theorem isPrefixOf_append (a b : PyStr) : a.isPrefixOf (a ++ b) = true := by
  induction a with
  | nil => simp
  | cons c cs ih => simp [List.isPrefixOf, ih]

/- ### Claim C1 -/

/-- C1: for an existing file whose base name is `sha256:<64 hex>` or
`sha256-<64 hex>`, `verify_checksum` returns precisely whether the
streamed SHA-256 hex digest of the file contents equals that checksum;
for an existing file whose base name starts with neither prefix it
raises a BadName-style `ValueError` instead of returning a boolean. -/
theorem verify_checksum_checks_digest_and_name :
    (∀ (digest : List Nat → PyStr) (fs : List (PyStr × List Nat))
       (filename : PyStr) (contents : List Nat) (c : PyStr),
       fs.lookup filename = some contents →
       (basenameL filename = ("sha256:").data ++ c ∨
        basenameL filename = ("sha256-").data ++ c) →
       c.length = 64 →
       (∀ ch ∈ c, ch ∈ hexDigits) →
       verify_checksum digest fs filename = Except.ok (digest contents == c))
    ∧
    (∀ (digest : List Nat → PyStr) (fs : List (PyStr × List Nat))
       (filename : PyStr) (contents : List Nat),
       fs.lookup filename = some contents →
       (("sha256:").data).isPrefixOf (basenameL filename) = false →
       (("sha256-").data).isPrefixOf (basenameL filename) = false →
       verify_checksum digest fs filename =
         Except.error (PyClass.valueError, badNameMsg)) := by
  constructor
  · intro digest fs filename contents c hlook hbase hlen hhex
    have hcolon : ':' ∉ c := fun hm => absurd (hhex _ hm) (by decide)
    have hdash : '-' ∉ c := fun hm => absurd (hhex _ hm) (by decide)
    simp only [verify_checksum, hlook]
    rcases hbase with hbase | hbase
    · rw [hbase]
      rw [isPrefixOf_append]
      have hsplit : ("sha256:").data ++ c = ("sha256").data ++ ':' :: c := rfl
      simp only [if_true]
      rw [hsplit, pySplit_append_sep ':' _ _ (by decide) hcolon]
      simp [checkDigest, hlen]
    · rw [hbase]
      have hno : (("sha256:").data).isPrefixOf (("sha256-").data ++ c) = false := rfl
      rw [hno, isPrefixOf_append]
      have hsplit : ("sha256-").data ++ c = ("sha256").data ++ '-' :: c := rfl
      simp only [Bool.false_eq_true, if_false, if_true]
      rw [hsplit, pySplit_append_sep '-' _ _ (by decide) hdash]
      simp [checkDigest, hlen]
  · intro digest fs filename contents hlook h1 h2
    simp [verify_checksum, hlook, h1, h2]

/-- Digest oracle used by the C1 witness: every file hashes to 64 `a`s. -/
def c1Digest : List Nat → PyStr := fun _ => List.replicate 64 'a'

/-- Path used by the C1 witness. -/
def c1File : PyStr := ("sha256:").data ++ List.replicate 64 'a'

/-- One-file filesystem used by the C1 witness. -/
def c1FS : List (PyStr × List Nat) := [(c1File, [1, 2, 3])]

/-- Witness for C1 at a concrete file whose name carries the digest of
its contents. -/
theorem verify_checksum_checks_digest_and_name_witness :
    verify_checksum c1Digest c1FS c1File = Except.ok true :=
  (verify_checksum_checks_digest_and_name.1 c1Digest c1FS c1File
      [1, 2, 3] (List.replicate 64 'a') (by decide)
      (Or.inl (by decide)) (by decide) (by decide)).trans rfl

/- ### Claim C9 -/

/-- C9: for a path that does not name an existing file,
`verify_checksum` returns `false` rather than raising, whatever the
filename looks like — the existence check precedes the filename
validation. -/
theorem verify_checksum_missing_file_returns_false :
    ∀ (digest : List Nat → PyStr) (fs : List (PyStr × List Nat))
      (filename : PyStr),
      fs.lookup filename = none →
      verify_checksum digest fs filename = Except.ok false := by
  intro digest fs filename h
  simp [verify_checksum, h]

/-- Witness for C9: a missing file whose name carries no checksum
prefix still yields `false`, not an error. -/
theorem verify_checksum_missing_file_returns_false_witness :
    verify_checksum (fun _ => []) [] (("not-a-checksum-name").data) =
      Except.ok false :=
  verify_checksum_missing_file_returns_false _ _ _ rfl

/- ### Claim C10 — `parse_port_option` (ramalama/cli/_utils.py) -/

/-- `parse_port_option(option)` from ramalama/cli/_utils.py.  The source
first computes `port = int(option)`; that numeral conversion is
supplied here as the explicit input `port`.  On success the original
string is returned unchanged.  The `Invalid port ...` message elides the
interpolated value. -/
def parse_port_option (option : PyStr) (port : Int) : Except PyStr PyStr :=
  if port ≤ 0 ∨ port ≥ 65535 then
    Except.error (("Invalid port").data)
  else
    Except.ok option

/-- C10: the port option parser accepts exactly the values 1..65534,
returning the option string unchanged, and in particular rejects the
valid TCP port 65535 with an invalid-port error. -/
theorem parse_port_option_range :
    ∀ (option : PyStr) (port : Int),
      (parse_port_option option port = Except.ok option ↔
        1 ≤ port ∧ port ≤ 65534)
      ∧ parse_port_option option 65535 =
          Except.error (("Invalid port").data) := by
  intro option port
  refine ⟨⟨fun h => ?_, fun h => ?_⟩, ?_⟩
  · by_cases hc : port ≤ 0 ∨ port ≥ 65535
    · simp [parse_port_option, hc] at h
    · omega
  · have hc : ¬(port ≤ 0 ∨ port ≥ 65535) := by omega
    simp [parse_port_option, hc]
  · have hc : (65535 : Int) ≤ 0 ∨ (65535 : Int) ≥ 65535 := by omega
    simp [parse_port_option, hc]

/- ### Claim C8 — Compose generator
   (ramalama/runtime/generators/compose.py) -/

/-- The fixed GPU reservations block emitted by
`Compose._gen_gpu_deployment`. -/
def gpuDeployBlock : PyStr :=
  ("    deploy:\n      resources:\n        reservations:\n          devices:\n            - driver: nvidia\n              count: all\n              capabilities: [gpu]").data

/-- `Compose._gen_gpu_deployment`: the empty string unless the
lower-cased image name contains one of the keywords `cuda`, `rocm`,
`gpu` (the source returns early on `not any(...)`). -/
def gen_gpu_deployment (image : PyStr) : PyStr :=
  if [("cuda").data, ("rocm").data, ("gpu").data].any
      (fun keyword => pyIn keyword (toLowerL image)) then
    gpuDeployBlock
  else
    []

/-- A generated file: name plus content (`PlainFile` from
ramalama/utils/file.py as used by the generator). -/
structure PlainFile where
  filename : PyStr
  content : PyStr
  deriving DecidableEq, Repr

/-- `genfile` from ramalama/runtime/generators/compose.py: ignores the
service name and always writes `docker-compose.yaml`. -/
def genfile (_name content : PyStr) : PlainFile :=
  ⟨("docker-compose.yaml").data, content⟩

/-- C8: the Compose generator always names its output file
`docker-compose.yaml`, and the emitted GPU-deployment section contains
the `deploy: / resources: / reservations:` block exactly when the
lower-cased image name contains `cuda`, `rocm` or `gpu`. -/
theorem compose_output_name_and_gpu_block :
    (∀ (name content : PyStr),
        (genfile name content).filename = ("docker-compose.yaml").data)
    ∧
    (∀ image : PyStr,
        pyIn (("deploy:\n      resources:\n        reservations:").data)
            (gen_gpu_deployment image) =
          (pyIn (("cuda").data) (toLowerL image) ||
           pyIn (("rocm").data) (toLowerL image) ||
           pyIn (("gpu").data) (toLowerL image))) := by
  constructor
  · intro name content
    rfl
  · intro image
    unfold gen_gpu_deployment
    split
    · rename_i h
      simp only [List.any_cons, List.any_nil, Bool.or_false] at h
      rw [show pyIn (("deploy:\n      resources:\n        reservations:").data)
            gpuDeployBlock = true from by decide]
      rw [Bool.or_assoc]
      exact h.symm
    · rename_i h
      simp only [List.any_cons, List.any_nil, Bool.or_false,
        Bool.or_eq_true, not_or] at h
      obtain ⟨h1, h2, h3⟩ := h
      simp only [Bool.not_eq_true] at h1 h2 h3
      simp only [pyIn] at h1 h2 h3
      simp [pyIn, isInfixOfL, h1, h2, h3]

/- ### Claim C2 — the CLI error-to-exit-code mapping
   (`main` in ramalama/cli/__init__.py) -/

/-- `errno.ENOENT` on Linux. -/
def ENOENT : Int := 2
/-- `errno.EIO` on Linux. -/
def EIO : Int := 5
/-- `errno.EINVAL` on Linux. -/
def EINVAL : Int := 22
/-- `errno.ENAMETOOLONG` on Linux. -/
def ENAMETOOLONG : Int := 36
/-- `errno.ENOSYS` on Linux. -/
def ENOSYS : Int := 38
/-- `errno.ETIMEDOUT` on Linux. -/
def ETIMEDOUT : Int := 110

/-- What `main` does with an exception escaping `args.func`:
`exited code printed` is `sys.exit(code)`, with `printed = true` when
`eprint` wrote an error message first; `reraised` means the exception
propagates out of `main`. -/
inductive MainOutcome where
  | exited (code : Int) (printed : Bool)
  | reraised
  deriving DecidableEq, Repr

/-- The `except` ladder of `main` (ramalama/cli/__init__.py lines
71-97), clause by clause in source order.  Each clause fires iff the
exception is an instance of (one of) its classes and no earlier clause
fired.  `except IOError` catches every `OSError`, since `IOError` is an
alias of `OSError` in Python 3. -/
def main_dispatch (e : PyExc) : MainOutcome :=
  if isInst e .httpError then .exited EINVAL true
  else if isInst e .fileNotFoundError then .exited ENOENT true
  else if isInst e .connectionError || isInst e .indexError ||
      isInst e .keyError || isInst e .valueError ||
      isInst e .noRefFileFound then .exited EINVAL true
  else if isInst e .notImplementedError then .exited ENOSYS true
  else if isInst e .timeoutExpired then .exited ETIMEDOUT true
  else if isInst e .calledProcessError then .exited e.returncode true
  else if isInst e .endianMismatchError then .exited 1 false
  else if isInst e .keyboardInterrupt then .exited 0 false
  else if isInst e .osError then .exited EIO true
  else if isInst e .parseError then .exited EINVAL true
  else if isInst e .noGGUFModelFileFound then .exited ENOENT true
  else if isInst e .exceptionBase then
    if isInst e .osError && (e.winerror == some 206) then
      .exited ENAMETOOLONG true
    else
      .reraised
  else .reraised

/-- C2, settled against the code: every claimed mapping holds except
the last one.  An `EndianMismatchError` exits 1 printing nothing; a
`FileNotFoundError` exits ENOENT; `ConnectionError`, `IndexError`,
`KeyError`, `ValueError` and `NoRefFileFound` exit EINVAL;
`NotImplementedError` exits ENOSYS; `subprocess.TimeoutExpired` exits
ETIMEDOUT; a plain `IOError`/`OSError` exits EIO; a
`CalledProcessError` exits with its own returncode — but an `OSError`
whose `winerror` is 206 is intercepted by the earlier
`except IOError` clause (`IOError` aliases `OSError`) and exits EIO:
the dedicated ENAMETOOLONG branch on line 94 is unreachable, contrary
to the claim and to the spec. -/
theorem main_dispatch_exit_codes :
    main_dispatch ⟨.endianMismatchError, none, 0⟩ = .exited 1 false
    ∧ main_dispatch ⟨.fileNotFoundError, none, 0⟩ = .exited ENOENT true
    ∧ main_dispatch ⟨.connectionError, none, 0⟩ = .exited EINVAL true
    ∧ main_dispatch ⟨.indexError, none, 0⟩ = .exited EINVAL true
    ∧ main_dispatch ⟨.keyError, none, 0⟩ = .exited EINVAL true
    ∧ main_dispatch ⟨.valueError, none, 0⟩ = .exited EINVAL true
    ∧ main_dispatch ⟨.noRefFileFound, none, 0⟩ = .exited EINVAL true
    ∧ main_dispatch ⟨.notImplementedError, none, 0⟩ = .exited ENOSYS true
    ∧ main_dispatch ⟨.timeoutExpired, none, 0⟩ = .exited ETIMEDOUT true
    ∧ main_dispatch ⟨.osError, none, 0⟩ = .exited EIO true
    ∧ (∀ rc : Int, main_dispatch ⟨.calledProcessError, none, rc⟩ =
        .exited rc true)
    ∧ main_dispatch ⟨.osError, some 206, 0⟩ = .exited EIO true
    ∧ main_dispatch ⟨.osError, some 206, 0⟩ ≠ .exited ENAMETOOLONG true := by
  refine ⟨by decide, by decide, by decide, by decide, by decide, by decide,
    by decide, by decide, by decide, by decide, fun rc => ?_, by decide,
    by decide⟩
  simp [main_dispatch, isInst, PyClass.mro, ENOENT, EIO, EINVAL, ENOSYS,
    ETIMEDOUT]

/- ### Claim C5 — `OCI.remove` (ramalama/transports/oci.py) -/

/-- Errors raised by `OCI.remove`: `NotImplementedError` when no
container engine is configured, `KeyError` when nothing could be
removed. -/
inductive RemoveErr where
  | notImplemented (msg : PyStr)
  | keyError (msg : PyStr)
  deriving DecidableEq, Repr

/-- Python `str(bool)`. -/
def pyStrBool (b : Bool) : PyStr :=
  if b then ("True").data else ("False").data

/-- The `conman manifest rm model` invocation. -/
def manifest_rm_cmd (cm model : PyStr) : List PyStr :=
  [cm, ("manifest").data, ("rm").data, model]

/-- The `conman rmi --force=<ignore> model` invocation. -/
def rmi_cmd (cm model : PyStr) (ignore : Bool) : List PyStr :=
  [cm, ("rmi").data, ("--force=").data ++ pyStrBool ignore, model]

/-- The `conman artifact rm [--ignore] model` invocation built by
`OCI._rm_artifact`. -/
def artifact_rm_cmd (cm model : PyStr) (ignore : Bool) : List PyStr :=
  [cm, ("artifact").data, ("rm").data]
    ++ (if ignore then [("--ignore").data] else []) ++ [model]

/-- `OCI.remove` from ramalama/transports/oci.py.  `runOk cmd = false`
models `run_cmd(cmd)` raising `CalledProcessError` (`run_cmd` always
passes `check=True`; `ignore_all` only silences output).  The first
component records the engine invocations attempted, in order; the
second is the outcome.  The `KeyError` message elides the quotes around
the model name. -/
def OCI_remove (conman : Option PyStr) (model : PyStr) (ignore : Bool)
    (runOk : List PyStr → Bool) :
    List (List PyStr) × Except RemoveErr Bool :=
  match conman with
  | none =>
    ([], Except.error (RemoveErr.notImplemented
      (("OCI Images require a container engine").data)))
  | some cm =>
    let c1 := manifest_rm_cmd cm model
    if runOk c1 then
      ([c1], Except.ok true)
    else
      let c2 := rmi_cmd cm model ignore
      if runOk c2 then
        ([c1, c2], Except.ok true)
      else
        let c3 := artifact_rm_cmd cm model ignore
        if runOk c3 then
          ([c1, c2, c3], Except.ok true)
        else
          ([c1, c2, c3], Except.error (RemoveErr.keyError
            (("Model ").data ++ model ++ (" not found").data)))

/-- C5: removal tries `manifest rm`, then on failure `rmi`, then on
failure `artifact rm`, in that fixed order; each later command is
attempted exactly when all earlier ones failed; the not-found
`KeyError` naming the model is raised exactly when all three fail, and
in every other case the call returns `true`. -/
theorem OCI_remove_fallback_order :
    ∀ (cm model : PyStr) (ignore : Bool) (runOk : List PyStr → Bool),
      ((OCI_remove (some cm) model ignore runOk).1 =
          [manifest_rm_cmd cm model] ∨
       (OCI_remove (some cm) model ignore runOk).1 =
          [manifest_rm_cmd cm model, rmi_cmd cm model ignore] ∨
       (OCI_remove (some cm) model ignore runOk).1 =
          [manifest_rm_cmd cm model, rmi_cmd cm model ignore,
           artifact_rm_cmd cm model ignore])
      ∧ (rmi_cmd cm model ignore ∈ (OCI_remove (some cm) model ignore runOk).1
          ↔ runOk (manifest_rm_cmd cm model) = false)
      ∧ (artifact_rm_cmd cm model ignore ∈
            (OCI_remove (some cm) model ignore runOk).1
          ↔ (runOk (manifest_rm_cmd cm model) = false ∧
             runOk (rmi_cmd cm model ignore) = false))
      ∧ ((OCI_remove (some cm) model ignore runOk).2 = Except.ok true ↔
          (runOk (manifest_rm_cmd cm model) = true ∨
           runOk (rmi_cmd cm model ignore) = true ∨
           runOk (artifact_rm_cmd cm model ignore) = true))
      ∧ ((OCI_remove (some cm) model ignore runOk).2 =
            Except.error (RemoveErr.keyError
              (("Model ").data ++ model ++ (" not found").data)) ↔
          (runOk (manifest_rm_cmd cm model) = false ∧
           runOk (rmi_cmd cm model ignore) = false ∧
           runOk (artifact_rm_cmd cm model ignore) = false)) := by
  intro cm model ignore runOk
  have hne1 : rmi_cmd cm model ignore ≠ manifest_rm_cmd cm model := by
    simp [rmi_cmd, manifest_rm_cmd]
  have hne2 : artifact_rm_cmd cm model ignore ≠ manifest_rm_cmd cm model := by
    simp [artifact_rm_cmd, manifest_rm_cmd]
  have hne3 : artifact_rm_cmd cm model ignore ≠ rmi_cmd cm model ignore := by
    simp [artifact_rm_cmd, rmi_cmd]
  cases h1 : runOk (manifest_rm_cmd cm model) <;>
    cases h2 : runOk (rmi_cmd cm model ignore) <;>
      cases h3 : runOk (artifact_rm_cmd cm model ignore) <;>
        simp [OCI_remove, h1, h2, h3, hne1, hne2, hne3]

/- ### Claim C7 — `map_https_to_transport`
   (inside `post_parse_setup`, ramalama/cli/_utils.py) -/

/-- The reference with its `https://` / `http://` scheme prefix
stripped — the part `urlparse` splits into netloc and path. -/
def urlAfterScheme (input : PyStr) : PyStr :=
  if (("https://").data).isPrefixOf input then input.drop 8
  else if (("http://").data).isPrefixOf input then input.drop 7
  else input

/-- Characters ending the netloc component of a URL. -/
def isNetlocEnd (c : Char) : Bool :=
  c == '/' || c == '?' || c == '#'

/-- `urlparse(input).netloc`: everything between the scheme and the
first slash, query or fragment delimiter. -/
def urlNetloc (input : PyStr) : PyStr :=
  (urlAfterScheme input).takeWhile (fun c => !(isNetlocEnd c))

/-- `urlparse(input).path`: from the first slash after the netloc up to
a query or fragment delimiter. -/
def url_path (input : PyStr) : PyStr :=
  (((urlAfterScheme input).dropWhile (fun c => !(isNetlocEnd c))).takeWhile
    (fun c => !(c == '?' || c == '#')))

/-- `urlparse(input).hostname`: the netloc with any user-info part
(up to the last `@`) and any `:port` suffix removed, lower-cased.
(IPv6 bracket syntax is outside this model.) -/
def url_hostname (input : PyStr) : PyStr :=
  toLowerL (((urlNetloc input).reverse.takeWhile (fun c => !(c == '@'))).reverse.takeWhile
    (fun c => !(c == ':')))

/-- `map_https_to_transport` from `post_parse_setup`
(ramalama/cli/_utils.py): rewrites an `https://`/`http://` reference to
a known model host into the native scheme, and returns every other
input unchanged. -/
def map_https_to_transport (input : PyStr) : PyStr :=
  if (("https://").data).isPrefixOf input ||
      (("http://").data).isPrefixOf input then
    if (url_path input).count '/' ≠ 2 then input
    else if url_hostname input ∈ [("hf.co").data, ("huggingface.co").data] then
      ("hf:/").data ++ url_path input
    else if url_hostname input ∈ [("ollama.com").data] then
      ("ollama:/").data ++ url_path input
    else input
  else input

/-- C7: an `https://` or `http://` reference whose host is `hf.co` or
`huggingface.co` (resp. `ollama.com`) and whose URL path contains
exactly two slashes is rewritten to `hf:/<path>` (resp.
`ollama:/<path>`) — and since such a path starts with a slash this is
the native-scheme reference `hf://...` — while every other reference is
returned unchanged. -/
theorem map_https_to_transport_spec :
    (∀ input : PyStr,
       ((("https://").data).isPrefixOf input ||
        (("http://").data).isPrefixOf input) = true →
       (url_path input).count '/' = 2 →
       url_hostname input ∈ [("hf.co").data, ("huggingface.co").data] →
       map_https_to_transport input = ("hf:/").data ++ url_path input)
    ∧
    (∀ input : PyStr,
       ((("https://").data).isPrefixOf input ||
        (("http://").data).isPrefixOf input) = true →
       (url_path input).count '/' = 2 →
       url_hostname input = ("ollama.com").data →
       map_https_to_transport input = ("ollama:/").data ++ url_path input)
    ∧
    (∀ input : PyStr,
       (((("https://").data).isPrefixOf input ||
         (("http://").data).isPrefixOf input) = false ∨
        (url_path input).count '/' ≠ 2 ∨
        (url_hostname input ∉ [("hf.co").data, ("huggingface.co").data] ∧
         url_hostname input ≠ ("ollama.com").data)) →
       map_https_to_transport input = input) := by
  refine ⟨fun input hs hc hh => ?_, fun input hs hc hh => ?_,
    fun input h => ?_⟩
  · simp [map_https_to_transport, hs, hc, hh]
  · have hnot : url_hostname input ∉ [("hf.co").data, ("huggingface.co").data] := by
      rw [hh]; decide
    simp [map_https_to_transport, hs, hc, hh, hnot]
  · rcases h with h | h | ⟨h1, h2⟩
    · simp [map_https_to_transport, h]
    · by_cases hs : ((("https://").data).isPrefixOf input ||
        (("http://").data).isPrefixOf input) = true
      · simp [map_https_to_transport, hs, h]
      · simp [map_https_to_transport, hs]
    · by_cases hs : ((("https://").data).isPrefixOf input ||
        (("http://").data).isPrefixOf input) = true
      · by_cases hc : (url_path input).count '/' = 2
        · simp [map_https_to_transport, hs, hc, h1, h2]
        · simp [map_https_to_transport, hs, hc]
      · simp [map_https_to_transport, hs]

/-- Witness for C7: `https://hf.co/user/repo` is rewritten to
`hf://user/repo`. -/
theorem map_https_to_transport_spec_witness :
    map_https_to_transport (("https://hf.co/user/repo").data) =
      ("hf://user/repo").data :=
  (map_https_to_transport_spec.1 (("https://hf.co/user/repo").data)
      (by decide) (by decide) (by decide)).trans (by decide)

/- ### Claim C3 — `_enumerate_store_gguf_models`
   (ramalama/cli/commands/serve.py) -/

/-- The role (`type` field) of a file listed in a ref file (spec §3). -/
inductive FileRole where
  | model
  | mmproj
  | chatTemplate
  | draft
  | other
  deriving DecidableEq, Repr

/-- A file listed in a ref file: its role, whether its payload is GGUF,
and its `hash` string (spec §3 schema: `"hash": "sha256-<hex>"`). -/
structure StoreFile where
  role : FileRole
  isGGUF : Bool
  hash : PyStr
  deriving DecidableEq, Repr

/-- A ref file: its on-disk file name (`<tag>.json`) and the files it
indexes. -/
structure RefFile where
  fileName : PyStr
  files : List StoreFile
  deriving DecidableEq, Repr

/-- One store directory visited by the `os.walk` loop: its path parts
relative to the store root (`<scheme>/<path>`, recovered by the source
from `root.replace(store.path, "").lstrip(os.sep).split(os.sep)`), its
ref files, and the file names present in its `blobs` directory. -/
structure StoreRoot where
  relParts : List PyStr
  refs : List RefFile
  blobs : List PyStr
  deriving DecidableEq, Repr

/-- Modelled from the spec: `RefJSONFile.model_files`
(ramalama/model_store/reffile.py is not among the sources).  Spec §4.J
step 1 enumerates "every ref whose files include a role `model` whose
payload is GGUF", so `model_files` is the files of role `model` with a
GGUF payload. -/
def model_files (files : List StoreFile) : List StoreFile :=
  files.filter (fun f => f.role == FileRole.model && f.isGGUF)

/-- `sanitize_filename` from ramalama/utils/common.py: replace every
colon by a dash. -/
def sanitize_filename (s : PyStr) : PyStr :=
  replaceAll ((":").data) (("-").data) s

/-- `ref_file_name.replace(".json", "")`. -/
def refTag (refFileName : PyStr) : PyStr :=
  replaceAll ((".json").data) [] refFileName

/-- Python `"-".join(parts)`. -/
def joinDash (parts : List PyStr) : PyStr :=
  List.intercalate (("-").data) parts

/-- Python `os.path.join` on POSIX, for already-clean components. -/
def joinSlash (parts : List PyStr) : PyStr :=
  List.intercalate (("/").data) parts

/-- Inner loop of `_enumerate_store_gguf_models` over
`ref_file.model_files`: skip files whose blob is absent, name the first
mount `<readable>.gguf`, disambiguate a name already seen by appending
`hash[:8]`, and thread the `seen_names` set (modelled as a list used
for membership only). -/
def enumFiles (rootPath : PyStr) (blobs : List PyStr) (readable : PyStr) :
    List StoreFile → List PyStr → List (PyStr × PyStr) × List PyStr
  | [], seen => ([], seen)
  | f :: fs, seen =>
    if sanitize_filename f.hash ∈ blobs then
      let nm :=
        if readable ++ ((".gguf").data) ∈ seen then
          readable ++ (("-").data) ++ f.hash.take 8 ++ ((".gguf").data)
        else
          readable ++ ((".gguf").data)
      let rest := enumFiles rootPath blobs readable fs (nm :: seen)
      ((rootPath ++ (("/blobs/").data) ++ sanitize_filename f.hash, nm) :: rest.1,
       rest.2)
    else
      enumFiles rootPath blobs readable fs seen

/-- Middle loop over the ref files of one store directory. -/
def enumRefs (storePath : PyStr) (relParts : List PyStr)
    (blobs : List PyStr) :
    List RefFile → List PyStr → List (PyStr × PyStr) × List PyStr
  | [], seen => ([], seen)
  | r :: rs, seen =>
    let readable := joinDash (relParts ++ [refTag r.fileName])
    let rootPath := joinSlash (storePath :: relParts)
    let first := enumFiles rootPath blobs readable (model_files r.files) seen
    let rest := enumRefs storePath relParts blobs rs first.2
    (first.1 ++ rest.1, rest.2)

/-- Outer `os.walk` loop over the store directories that have a `refs`
subdirectory. -/
def enumRoots (storePath : PyStr) :
    List StoreRoot → List PyStr → List (PyStr × PyStr) × List PyStr
  | [], seen => ([], seen)
  | root :: roots, seen =>
    let first := enumRefs storePath root.relParts root.blobs root.refs seen
    let rest := enumRoots storePath roots first.2
    (first.1 ++ rest.1, rest.2)

/-- `_enumerate_store_gguf_models` from ramalama/cli/commands/serve.py:
the `(host_blob_path, readable_name.gguf)` pairs for every GGUF model
file in the store. -/
def enumerate_store_gguf_models (storePath : PyStr)
    (store : List StoreRoot) : List (PyStr × PyStr) :=
  (enumRoots storePath store []).1

/-- Claim-side rendering of the alias assignment (C3, amended): for
each GGUF model file of each ref, the alias `<scheme>-<path>-<tag>.gguf`,
with a duplicate alias disambiguated by appending the first eight
characters of the stored hash string (`hash[:8]`). -/
def specAliasFiles (readable : PyStr) :
    List StoreFile → List PyStr → List PyStr × List PyStr
  | [], assigned => ([], assigned)
  | f :: fs, assigned =>
    let nm :=
      if readable ++ ((".gguf").data) ∈ assigned then
        readable ++ (("-").data) ++ f.hash.take 8 ++ ((".gguf").data)
      else
        readable ++ ((".gguf").data)
    let rest := specAliasFiles readable fs (nm :: assigned)
    (nm :: rest.1, rest.2)

/-- Claim-side alias assignment over the refs of one directory: a ref
with no GGUF model file contributes nothing. -/
def specAliasRefs (relParts : List PyStr) :
    List RefFile → List PyStr → List PyStr × List PyStr
  | [], assigned => ([], assigned)
  | r :: rs, assigned =>
    let first := specAliasFiles (joinDash (relParts ++ [refTag r.fileName]))
      (model_files r.files) assigned
    let rest := specAliasRefs relParts rs first.2
    (first.1 ++ rest.1, rest.2)

/-- Claim-side alias assignment over the whole store. -/
def specAliases : List StoreRoot → List PyStr → List PyStr × List PyStr
  | [], assigned => ([], assigned)
  | root :: roots, assigned =>
    let first := specAliasRefs root.relParts root.refs assigned
    let rest := specAliases roots first.2
    (first.1 ++ rest.1, rest.2)

theorem enumFiles_aliases (rootPath : PyStr) (blobs : List PyStr)
    (readable : PyStr) :
    ∀ (fs : List StoreFile) (seen : List PyStr),
      (∀ f ∈ fs, sanitize_filename f.hash ∈ blobs) →
      (enumFiles rootPath blobs readable fs seen).1.map Prod.snd =
          (specAliasFiles readable fs seen).1 ∧
        (enumFiles rootPath blobs readable fs seen).2 =
          (specAliasFiles readable fs seen).2 := by
  intro fs
  induction fs with
  | nil => intro seen _; exact ⟨rfl, rfl⟩
  | cons f fs ih =>
    intro seen hall
    have hf : sanitize_filename f.hash ∈ blobs :=
      hall f (List.mem_cons_self f fs)
    have hsub : ∀ g ∈ fs, sanitize_filename g.hash ∈ blobs :=
      fun g hg => hall g (List.mem_cons_of_mem f hg)
    by_cases hmem : readable ++ ((".gguf").data) ∈ seen
    · have hrest := ih
        ((readable ++ (("-").data) ++ f.hash.take 8 ++ ((".gguf").data)) :: seen)
        hsub
      simp only [enumFiles, specAliasFiles, hf, hmem, if_true, List.map_cons]
      exact ⟨by rw [hrest.1], hrest.2⟩
    · have hrest := ih ((readable ++ ((".gguf").data)) :: seen) hsub
      simp only [enumFiles, specAliasFiles, hf, hmem, if_true, if_false,
        List.map_cons]
      exact ⟨by rw [hrest.1], hrest.2⟩

theorem enumRefs_aliases (storePath : PyStr) (relParts : List PyStr)
    (blobs : List PyStr) :
    ∀ (rs : List RefFile) (seen : List PyStr),
      (∀ r ∈ rs, ∀ f ∈ model_files r.files,
        sanitize_filename f.hash ∈ blobs) →
      (enumRefs storePath relParts blobs rs seen).1.map Prod.snd =
          (specAliasRefs relParts rs seen).1 ∧
        (enumRefs storePath relParts blobs rs seen).2 =
          (specAliasRefs relParts rs seen).2 := by
  intro rs
  induction rs with
  | nil => intro seen _; exact ⟨rfl, rfl⟩
  | cons r rs ih =>
    intro seen hall
    have hr := enumFiles_aliases (joinSlash (storePath :: relParts)) blobs
      (joinDash (relParts ++ [refTag r.fileName])) (model_files r.files)
      seen (hall r (List.mem_cons_self r rs))
    have hrest := ih
      (enumFiles (joinSlash (storePath :: relParts)) blobs
        (joinDash (relParts ++ [refTag r.fileName])) (model_files r.files)
        seen).2
      (fun g hg => hall g (List.mem_cons_of_mem r hg))
    simp only [enumRefs, specAliasRefs, List.map_append]
    constructor
    · rw [hr.1, hrest.1, hr.2]
    · rw [hrest.2, hr.2]

theorem enumRoots_aliases (storePath : PyStr) :
    ∀ (roots : List StoreRoot) (seen : List PyStr),
      (∀ root ∈ roots, ∀ r ∈ root.refs, ∀ f ∈ model_files r.files,
        sanitize_filename f.hash ∈ root.blobs) →
      (enumRoots storePath roots seen).1.map Prod.snd =
          (specAliases roots seen).1 ∧
        (enumRoots storePath roots seen).2 =
          (specAliases roots seen).2 := by
  intro roots
  induction roots with
  | nil => intro seen _; exact ⟨rfl, rfl⟩
  | cons root roots ih =>
    intro seen hall
    have hr := enumRefs_aliases storePath root.relParts root.blobs root.refs
      seen (hall root (List.mem_cons_self root roots))
    have hrest := ih
      (enumRefs storePath root.relParts root.blobs root.refs seen).2
      (fun g hg => hall g (List.mem_cons_of_mem root hg))
    simp only [enumRoots, specAliases, List.map_append]
    constructor
    · rw [hr.1, hrest.1, hr.2]
    · rw [hrest.2, hr.2]

/-- C3 (amended): when every referenced blob is present (spec §3
invariant 1), the router enumeration yields exactly one mount per GGUF
model file of each ref — refs without a GGUF model file contribute no
mount — named `<scheme>-<path>-<tag>.gguf`, a duplicate being
disambiguated by appending the first eight characters of the stored
hash string (`hash[:8]`), not the first eight hex digits of the
digest. -/
theorem enumerate_store_gguf_models_aliases (storePath : PyStr)
    (store : List StoreRoot)
    (hblobs : ∀ root ∈ store, ∀ r ∈ root.refs, ∀ f ∈ model_files r.files,
      sanitize_filename f.hash ∈ root.blobs) :
    (enumerate_store_gguf_models storePath store).map Prod.snd =
      (specAliases store []).1 :=
  (enumRoots_aliases storePath store [] hblobs).1

/-- Hash of the first GGUF shard in the C3 counterexample store,
following the spec §3 ref-file schema `sha256-<hex>`. -/
def cexHash1 : PyStr := ("sha256-").data ++ List.replicate 64 'a'

/-- Hash of the second GGUF shard in the C3 counterexample store. -/
def cexHash2 : PyStr := ("sha256-").data ++ List.replicate 64 'b'

/-- A store with one ref (`ollama/lib`, tag `latest`) holding two GGUF
model files whose blobs are both present, so the second mount must be
disambiguated. -/
def cexStore : List StoreRoot :=
  [⟨[("ollama").data, ("lib").data],
    [⟨("latest.json").data,
      [⟨FileRole.model, true, cexHash1⟩, ⟨FileRole.model, true, cexHash2⟩]⟩],
    [cexHash1, cexHash2]⟩]

/-- C3 counterexample: on `cexStore` the code names the duplicate mount
`...-sha256-b.gguf` (it appends `hash[:8]`, which starts with the
`sha256-` prefix), not `...-bbbbbbbb.gguf` as appending the first eight
hex characters of the hash would. -/
theorem enumerate_store_gguf_models_hash8_counterexample :
    (enumerate_store_gguf_models (("/store").data) cexStore).map Prod.snd =
      [("ollama-lib-latest.gguf").data,
       ("ollama-lib-latest-sha256-b.gguf").data]
    ∧ ("ollama-lib-latest-sha256-b.gguf").data ≠
        ("ollama-lib-latest-").data ++ (cexHash2.drop 7).take 8 ++
          ((".gguf").data) := by
  constructor
  · decide
  · decide

/-- Witness for C3 (amended) at the counterexample store, whose blobs
are all present. -/
theorem enumerate_store_gguf_models_aliases_witness :
    (enumerate_store_gguf_models (("/store").data) cexStore).map Prod.snd =
      (specAliases cexStore []).1 :=
  enumerate_store_gguf_models_aliases (("/store").data) cexStore (by decide)

/- ### Claim C6 — `_serve_router` requires a container
   (ramalama/cli/commands/serve.py together with the CLI
   error mapping) -/

/-- Observable side effects of `serve`: enumerating the model store,
launching the engine container, or printing the dry-run command. -/
inductive ServeEffect where
  | enumeratedStore
  | launchedContainer
  | generatedDryRun
  deriving DecidableEq, Repr

/-- The `NotImplementedError` raised by `_serve_router` when no
container runtime is used. -/
def notSupportedRouterExc : PyExc := ⟨PyClass.notImplementedError, none, 0⟩

/-- `_serve_router` from ramalama/cli/commands/serve.py, as a trace of
effects plus an outcome: without a container it raises
`NotImplementedError` at once; otherwise it enumerates the store,
raises `IndexError` when no GGUF model was found, and finally launches
(or dry-runs) the engine container. -/
def serve_router (container dryrun : Bool) (storePath : PyStr)
    (store : List StoreRoot) : List ServeEffect × Except PyExc Unit :=
  if container = false then
    ([], Except.error notSupportedRouterExc)
  else
    let models := enumerate_store_gguf_models storePath store
    if models.isEmpty then
      ([ServeEffect.enumeratedStore], Except.error ⟨PyClass.indexError, none, 0⟩)
    else
      ([ServeEffect.enumeratedStore,
        if dryrun then ServeEffect.generatedDryRun
        else ServeEffect.launchedContainer],
       Except.ok ())

/-- `serve_cli` dispatch (ramalama/cli/commands/serve.py lines 36-41):
with no MODEL argument the router path runs; the single-model path is
abstracted as `serveModel`. -/
def serve_cli (modelArg : Option PyStr) (container dryrun : Bool)
    (storePath : PyStr) (store : List StoreRoot)
    (serveModel : PyStr → List ServeEffect × Except PyExc Unit) :
    List ServeEffect × Except PyExc Unit :=
  match modelArg with
  | none => serve_router container dryrun storePath store
  | some m => serveModel m

/-- C6: serving with no model and container mode disabled fails with
`NotImplementedError` — mapped by the CLI to exit code ENOSYS — with an
empty effect trace: the store is never enumerated and no container is
launched. -/
theorem serve_router_native_not_supported :
    ∀ (dryrun : Bool) (storePath : PyStr) (store : List StoreRoot)
      (serveModel : PyStr → List ServeEffect × Except PyExc Unit),
      serve_cli none false dryrun storePath store serveModel =
        ([], Except.error notSupportedRouterExc)
      ∧ main_dispatch notSupportedRouterExc =
          MainOutcome.exited ENOSYS true := by
  intro dryrun storePath store serveModel
  exact ⟨rfl, by decide⟩

/- ### Claim C4 — `_list_models_from_store`
   (ramalama/cli/commands/list.py) -/

/-- The per-file record returned by `GlobalModelStore.list_models`
(`is_partial`, `size` and `modified` in the source; the partial flag is
named `partialFlag` here).  Modification times are modelled as integer
timestamps. -/
structure FileInfo where
  partialFlag : Bool
  size : Nat
  modified : Int
  deriving DecidableEq, Repr

/-- One row of the listing: `name`, ISO-rendered `modified`, `size`. -/
structure ListedModel where
  name : PyStr
  modifiedRendered : PyStr
  size : Nat
  deriving DecidableEq, Repr

/-- The body of the `for model, files in models.items()` loop of
`_list_models_from_store`: skip partially downloaded models unless
`--all`, otherwise aggregate size and last-modified and mark partial
models.  `iso` models `datetime.fromtimestamp(..).isoformat()`; `trim`
models `trim_model_name` (ramalama/transports/base.py, not among the
sources). -/
def list_entry (iso : Int → PyStr) (trim : PyStr → PyStr) (allFlag : Bool)
    (mf : PyStr × List FileInfo) : Option ListedModel :=
  let isPartiallyDownloaded := mf.2.any (fun f => f.partialFlag)
  if !allFlag && isPartiallyDownloaded then
    none
  else
    let m := trim mf.1
    let sizeSum := mf.2.foldl (fun acc f => acc + f.size) 0
    let lastModified := mf.2.foldl (fun acc f => max f.modified acc) 0
    some ⟨(if isPartiallyDownloaded then m ++ ((" (partial)").data) else m),
          iso lastModified, sizeSum⟩

/-- `_list_models_from_store` (entry construction; the trailing
in-place sort only permutes the returned rows). -/
def list_models_from_store (iso : Int → PyStr) (trim : PyStr → PyStr)
    (allFlag : Bool) (models : List (PyStr × List FileInfo)) :
    List ListedModel :=
  models.filterMap (list_entry iso trim allFlag)

/-- The maximum of a list of integers, zero for the empty list. -/
def listMaxInt : List Int → Int
  | [] => 0
  | x :: xs => max x (listMaxInt xs)

/-- Claim-side rendering of one listing row (C4): a model with a
partial file is omitted when `all = false` and marked ` (partial)` when
`all = true`; the size is the sum of the file sizes and the modified
field is the rendering of the maximum modification time. -/
def spec_list_entry (iso : Int → PyStr) (trim : PyStr → PyStr)
    (allFlag : Bool) (mf : PyStr × List FileInfo) : Option ListedModel :=
  let hasPartialFile := mf.2.any (fun f => f.partialFlag)
  if allFlag = false ∧ hasPartialFile = true then
    none
  else
    some ⟨trim mf.1 ++ (if hasPartialFile then ((" (partial)").data) else []),
          iso (listMaxInt (mf.2.map (fun f => f.modified))),
          (mf.2.map (fun f => f.size)).sum⟩

theorem foldl_add_acc (l : List FileInfo) :
    ∀ acc : Nat, l.foldl (fun a f => a + f.size) acc =
      acc + (l.map (fun f => f.size)).sum := by
  induction l with
  | nil => intro acc; simp
  | cons f fs ih => intro acc; simp [ih, Nat.add_assoc]

theorem listMaxInt_nonneg (l : List Int) (h : ∀ x ∈ l, 0 ≤ x) :
    0 ≤ listMaxInt l := by
  induction l with
  | nil => exact le_refl 0
  | cons x xs ih =>
    exact le_trans (ih (fun y hy => h y (List.mem_cons_of_mem x hy)))
      (le_max_right x (listMaxInt xs))

theorem foldl_max_acc (l : List Int) :
    ∀ acc : Int, 0 ≤ acc → l.foldl (fun a x => max x a) acc =
      max acc (listMaxInt l) := by
  induction l with
  | nil =>
    intro acc hacc
    simp [listMaxInt, max_eq_left hacc]
  | cons x xs ih =>
    intro acc hacc
    simp only [List.foldl_cons, listMaxInt]
    rw [ih (max x acc) (le_trans hacc (le_max_right x acc)),
      max_comm x acc, max_assoc]

theorem list_entry_eq_spec (iso : Int → PyStr) (trim : PyStr → PyStr)
    (allFlag : Bool) (mf : PyStr × List FileInfo)
    (h : ∀ f ∈ mf.2, 0 ≤ f.modified) :
    list_entry iso trim allFlag mf = spec_list_entry iso trim allFlag mf := by
  have hsize : mf.2.foldl (fun a f => a + f.size) 0 =
      (mf.2.map (fun f => f.size)).sum := by
    simpa using foldl_add_acc mf.2 0
  have hmax : mf.2.foldl (fun a f => max f.modified a) 0 =
      listMaxInt (mf.2.map (fun f => f.modified)) := by
    have h1 : mf.2.foldl (fun a f => max f.modified a) 0 =
        (mf.2.map (fun f => f.modified)).foldl (fun a x => max x a) 0 := by
      rw [List.foldl_map]
    have h2 : ∀ x ∈ mf.2.map (fun f => f.modified), 0 ≤ x := by
      intro x hx
      obtain ⟨f, hf, rfl⟩ := List.mem_map.mp hx
      exact h f hf
    rw [h1, foldl_max_acc _ 0 (le_refl 0)]
    exact max_eq_right (listMaxInt_nonneg _ h2)
  cases hp : mf.2.any (fun f => f.partialFlag) <;> cases allFlag <;>
    simp [list_entry, spec_list_entry, hp, hsize, hmax]

/-- C4: for every store listing, a model with a partially downloaded
file is omitted when `all = false` and shown with the ` (partial)`
marker when `all = true`; the size of each listed row is the sum of
the file sizes of the model and its modified field renders the maximum
modification time over those files. -/
theorem list_models_partial_size_modified :
    ∀ (iso : Int → PyStr) (trim : PyStr → PyStr) (allFlag : Bool)
      (models : List (PyStr × List FileInfo)),
      (∀ mf ∈ models, ∀ f ∈ mf.2, 0 ≤ f.modified) →
      list_models_from_store iso trim allFlag models =
        models.filterMap (spec_list_entry iso trim allFlag) := by
  intro iso trim allFlag models
  induction models with
  | nil => intro _; rfl
  | cons mf rest ih =>
    intro h
    have hmf := list_entry_eq_spec iso trim allFlag mf
      (h mf (List.mem_cons_self mf rest))
    have hrest := ih (fun g hg => h g (List.mem_cons_of_mem mf hg))
    simp only [list_models_from_store, List.filterMap_cons] at hrest ⊢
    rw [hmf, hrest]

/-- Timestamp renderer used by the C4 witness. -/
def c4iso : Int → PyStr := fun n => if n = 5 then ("five").data else []

/-- Store contents used by the C4 witness: one complete model, one
partially downloaded model. -/
def c4models : List (PyStr × List FileInfo) :=
  [(("m1").data, [⟨false, 3, 5⟩, ⟨false, 0, 4⟩]),
   (("m2").data, [⟨true, 4, 9⟩])]

/-- Witness for C4: with `all = false` the partially downloaded `m2` is
omitted and `m1` aggregates size 3 and the rendered maximum
modification time 5. -/
theorem list_models_partial_size_modified_witness :
    list_models_from_store c4iso (fun s => s) false c4models =
      [⟨("m1").data, ("five").data, 3⟩] :=
  (list_models_partial_size_modified c4iso (fun s => s) false c4models
    (by decide)).trans (by decide)

end Ramalama
